import Mathlib

/-!
Verification development for the nps-explorer-v2 aggregation-and-recommendation
engine.  The definitions below are a shallow embedding of the TypeScript source:

* the visit-window scorer and report composition inside the planParkVisit tool
  (mcp-worker host file, symbol planParkVisit);
* the facility/trail aggregator, attribute decoding and identifier resolution
  (mcp-worker/services/recGovService.ts).

Modelling conventions:
* JavaScript numbers are modelled as Rat (all arithmetic used by the code is
  exact decimal arithmetic, no overflow-sensitive operations occur);
* NaN, which arises from parseFloat on a malformed string, is modelled
  explicitly by the JsNumber type;
* strings are Lean String; JS toLowerCase is the character-wise jsToLower and
  JS String.prototype.includes is the substring test strIncludes below
  (all strings the code compares are ASCII);
* calendar dates (compared by the code through Date objects) are modelled as
  integers, since Date parsing of the ISO date strings involved is strictly
  monotone in the calendar date;
* an awaited upstream call that can throw is modelled by an Except Unit result
  passed in as an argument; try/catch is modelled by matching on that result;
* JS Array.prototype.sort is stable with a consistent comparator (ES2019),
  and a stable sort is uniquely determined by the ordering, so the sort call
  in the scorer is modelled by List.mergeSort with the corresponding order.
-/

/-- Substring helper: startsWithChars hay needle is true iff needle is a
prefix of hay (character lists). -/
def startsWithChars : List Char → List Char → Bool
  | _, [] => true
  | [], _ :: _ => false
  | a :: as, b :: bs => a == b && startsWithChars as bs

/-- charsContain hay needle is true iff needle occurs contiguously in hay. -/
def charsContain : List Char → List Char → Bool
  | [], needle => needle.isEmpty
  | hay@(_ :: rest), needle => startsWithChars hay needle || charsContain rest needle

/-- Model of JS s.includes(sub): substring containment. -/
def strIncludes (s sub : String) : Bool :=
  charsContain s.toList sub.toList

/-- Model of JS s.toLowerCase() (character-wise lowering; all strings the
code lowers are ASCII). -/
def jsToLower (s : String) : String :=
  String.mk (s.toList.map Char.toLower)

/-- ForecastDay, as supplied by the weather collaborator (weatherService's
ForecastDay: date, minTempF, maxTempF, condition, chanceOfRain).  The date
string is modelled as an integer day number. -/
structure ForecastDay where
  date : Int
  minTempF : Rat
  maxTempF : Rat
  condition : String
  chanceOfRain : Rat
  deriving DecidableEq, Repr

/-- DayScore: the entries pushed onto goodWeatherDays by planParkVisit. -/
structure DayScore where
  date : Int
  score : Nat
  conditions : String
  deriving DecidableEq, Repr

/-- The goodConditions list of planParkVisit. -/
def goodConditions : List String := ["sunny", "clear", "partly cloudy"]

/-- Per-day score of the visit-window scorer, translated from the body of the
forEach loop in planParkVisit (let score = 0; score += ...). -/
def scoreDay (day : ForecastDay) : Nat :=
  let score : Nat := 0
  let avgTemp : Rat := (day.maxTempF + day.minTempF) / 2
  let score := score +
    (if avgTemp ≥ 65 ∧ avgTemp ≤ 80 then 3
     else if avgTemp ≥ 50 ∧ avgTemp ≤ 85 then 2
     else 1)
  let score := score +
    (if day.chanceOfRain < 20 then 3
     else if day.chanceOfRain < 40 then 2
     else if day.chanceOfRain < 60 then 1
     else 0)
  let score := score +
    (if goodConditions.any (fun c => strIncludes (jsToLower day.condition) c) then 2
     else 0)
  score

/-- The summary text pushed with each day (the conditions template string). -/
def dayConditionsText (day : ForecastDay) : String :=
  toString day.minTempF ++ "°F to " ++ toString day.maxTempF ++ "°F, " ++
    day.condition ++ ", " ++ toString day.chanceOfRain ++ "% chance of rain"

/-- The goodWeatherDays list built by planParkVisit from the detailed
forecast (one DayScore per forecast day, in input order). -/
def scoreDays (days : List ForecastDay) : List DayScore :=
  days.map (fun day => { date := day.date, score := scoreDay day, conditions := dayConditionsText day })

/-- The comparator (a, b) => b.score - a.score used on goodWeatherDays:
a precedes b iff b.score ≤ a.score. -/
def scoreDescLe (a b : DayScore) : Bool :=
  b.score ≤ a.score

/-- goodWeatherDays.sort((a, b) => b.score - a.score): a stable descending
sort by score (JS sort is stable, so List.mergeSort is its exact model). -/
def rankDays (l : List DayScore) : List DayScore :=
  l.mergeSort scoreDescLe

/-- Temperature term exactly as the specification words it: average of
min/max in the interval 65..80 scores 3, else in 50..85 scores 2, else 1. -/
def specTempTerm (day : ForecastDay) : Nat :=
  let avg : Rat := (day.minTempF + day.maxTempF) / 2
  if 65 ≤ avg ∧ avg ≤ 80 then 3
  else if 50 ≤ avg ∧ avg ≤ 85 then 2
  else 1

/-- Precipitation term exactly as the specification words it. -/
def specPrecipTerm (day : ForecastDay) : Nat :=
  if day.chanceOfRain < 20 then 3
  else if day.chanceOfRain < 40 then 2
  else if day.chanceOfRain < 60 then 1
  else 0

/-- Condition bonus exactly as the specification words it: 2 if the condition
text contains one of the three good-weather phrases case-insensitively. -/
def specCondBonus (day : ForecastDay) : Nat :=
  if goodConditions.any (fun c => strIncludes (jsToLower day.condition) c) then 2
  else 0

/-- Example day of the spec: average temperature 70°F, rain chance 10,
condition Sunny. -/
def exampleSunnyDay : ForecastDay :=
  { date := 0, minTempF := 60, maxTempF := 80, condition := "Sunny", chanceOfRain := 10 }

/-- Example day of the spec: average temperature 95°F, rain chance 80,
condition Stormy. -/
def exampleStormyDay : ForecastDay :=
  { date := 0, minTempF := 90, maxTempF := 100, condition := "Stormy", chanceOfRain := 80 }

/-- C1: for every forecast day, the per-day score equals the sum of the
temperature term, the precipitation term and the condition bonus as worded by
the specification; in particular the Sunny example day scores 8 and the
Stormy example day scores 1. -/
theorem scoreDay_eq_sum_of_terms :
    (∀ day : ForecastDay,
      scoreDay day = specTempTerm day + specPrecipTerm day + specCondBonus day) ∧
    scoreDay exampleSunnyDay = 8 ∧ scoreDay exampleStormyDay = 1 := by
  refine ⟨fun day => ?_, ?_, ?_⟩
  · simp only [scoreDay, specTempTerm, specPrecipTerm, specCondBonus, ge_iff_le]
    have hc : (day.maxTempF + day.minTempF) / 2 = (day.minTempF + day.maxTempF) / 2 := by
      ring
    rw [hc]
    omega
  · have hs : (goodConditions.any fun c => strIncludes (jsToLower "Sunny") c) = true := by
      decide
    simp only [scoreDay, exampleSunnyDay, hs]
    norm_num
  · have hs : (goodConditions.any fun c => strIncludes (jsToLower "Stormy") c) = false := by
      decide
    simp only [scoreDay, exampleStormyDay, hs]
    norm_num

/-- scoreDescLe is transitive. -/
theorem scoreDescLe_trans (a b c : DayScore) :
    scoreDescLe a b = true → scoreDescLe b c = true → scoreDescLe a c = true := by
  simp only [scoreDescLe, decide_eq_true_eq]
  omega

/-- scoreDescLe is total. -/
theorem scoreDescLe_total (a b : DayScore) :
    (scoreDescLe a b || scoreDescLe b a) = true := by
  simp only [scoreDescLe, Bool.or_eq_true, decide_eq_true_eq]
  omega

/-- C2: ranking is a stable descending sort by score: the ranked output is a
permutation of the scored sequence, higher scores come first (descending
pairwise order), and for every score value the subsequence of days carrying
that score is unchanged, i.e. equal-score days keep their original relative
order. -/
theorem rankDays_stable_descending :
    ∀ days : List ForecastDay,
      (rankDays (scoreDays days)).Perm (scoreDays days) ∧
      (rankDays (scoreDays days)).Pairwise (fun a b => b.score ≤ a.score) ∧
      ∀ s : Nat,
        (rankDays (scoreDays days)).filter (fun d => d.score == s) =
          (scoreDays days).filter (fun d => d.score == s) := by
  intro days
  refine ⟨List.mergeSort_perm _ _, ?_, ?_⟩
  · exact (List.sorted_mergeSort scoreDescLe_trans scoreDescLe_total _).imp
      (by simp only [scoreDescLe, decide_eq_true_eq]; exact fun h => h)
  · intro s
    set l := scoreDays days with hl
    set p : DayScore → Bool := fun d => d.score == s with hp
    have hpair : (l.filter p).Pairwise (fun a b => scoreDescLe a b = true) := by
      apply List.pairwise_of_forall_mem_list
      intro a ha b hb
      have ha2 : a.score = s := by
        have := (List.mem_filter.mp ha).2
        simpa [hp] using this
      have hb2 : b.score = s := by
        have := (List.mem_filter.mp hb).2
        simpa [hp] using this
      simp [scoreDescLe, ha2, hb2]
    have hsub : (l.filter p).Sublist (l.mergeSort scoreDescLe) :=
      List.sublist_mergeSort scoreDescLe_trans scoreDescLe_total hpair (List.filter_sublist l)
    have hsub2 : (l.filter p).Sublist ((l.mergeSort scoreDescLe).filter p) := by
      have h2 := hsub.filter p
      rwa [List.filter_filter, show (fun a => p a && p a) = p by funext a; simp] at h2
    have hlen : (l.filter p).length = ((l.mergeSort scoreDescLe).filter p).length :=
      (((List.mergeSort_perm l scoreDescLe).filter p).length_eq).symm
    exact (hsub2.eq_of_length hlen).symm

/-- Alert, as returned by npsService.getAlertsByPark (fields used by the
composer; id, url, parkCode and lastIndexedDate are carried but never read
by planParkVisit). -/
structure Alert where
  title : String
  description : String
  category : String
  deriving DecidableEq, Repr

/-- The closure-alert test of planParkVisit: title contains closure, or
title contains closed, or category contains closure (all lowered first). -/
def isClosureAlert (a : Alert) : Bool :=
  strIncludes (jsToLower a.title) "closure" ||
  strIncludes (jsToLower a.title) "closed" ||
  strIncludes (jsToLower a.category) "closure"

/-- closureAlerts, the filtered subset built by planParkVisit. -/
def closureAlertsOf (alerts : List Alert) : List Alert :=
  alerts.filter isClosureAlert

/-- The closure predicate as the specification words it: title OR category
containing closure or closed, case-insensitively.  Defined for comparison
with the source's isClosureAlert. -/
def specClosureAlert (a : Alert) : Bool :=
  (strIncludes (jsToLower a.title) "closure" || strIncludes (jsToLower a.title) "closed") ||
  (strIncludes (jsToLower a.category) "closure" || strIncludes (jsToLower a.category) "closed")

/-- An alert whose category alone says Closed. -/
def closedCategoryAlert : Alert :=
  { title := "Trail conditions update", description := "d", category := "Closed" }

/-- C4 counterexample: an alert whose category contains closed (but not
closure) and whose title contains neither word satisfies the claimed filter
predicate, yet the code's filter drops it: the code never checks the
category for closed. -/
theorem closure_filter_misses_closed_category :
    specClosureAlert closedCategoryAlert = true ∧
    isClosureAlert closedCategoryAlert = false ∧
    closureAlertsOf [closedCategoryAlert] = [] := by
  refine ⟨by decide, by decide, by decide⟩

/-- C4 amended: the closure filter selects exactly those alerts whose title
contains closure or closed case-insensitively, or whose category contains
closure case-insensitively (the category is not checked for closed). -/
theorem closure_filter_characterization :
    ∀ (alerts : List Alert) (a : Alert),
      a ∈ closureAlertsOf alerts ↔
        a ∈ alerts ∧
          (strIncludes (jsToLower a.title) "closure" = true ∨
           strIncludes (jsToLower a.title) "closed" = true ∨
           strIncludes (jsToLower a.category) "closure" = true) := by
  intro alerts a
  simp [closureAlertsOf, isClosureAlert, List.mem_filter, Bool.or_eq_true, or_assoc]

/-- The well-known parkCode to RecArea id table of parkToRecAreaId. -/
def knownMappings : List (String × Int) :=
  [("yose", 2991), ("grca", 2733), ("zion", 3042), ("yell", 3039), ("glac", 2725),
   ("romo", 2959), ("seki", 2979), ("olym", 2918), ("acad", 2674), ("grsm", 2734)]

/-- The well-known parkCode to display-name table of getParkNameFromCode. -/
def parkMap : List (String × String) :=
  [("yose", "Yosemite"), ("grca", "Grand Canyon"), ("zion", "Zion"),
   ("yell", "Yellowstone"), ("glac", "Glacier"), ("romo", "Rocky Mountain"),
   ("seki", "Sequoia Kings Canyon"), ("olym", "Olympic"), ("acad", "Acadia"),
   ("grsm", "Great Smoky Mountains"), ("dena", "Denali"), ("jotr", "Joshua Tree"),
   ("arch", "Arches"), ("brca", "Bryce Canyon"), ("cany", "Canyonlands"),
   ("care", "Capitol Reef"), ("cave", "Carlsbad Caverns"), ("chis", "Channel Islands"),
   ("crla", "Crater Lake"), ("depo", "Death Valley"), ("ever", "Everglades"),
   ("gumo", "Guadalupe Mountains"), ("havo", "Hawaii Volcanoes"), ("hosp", "Hot Springs"),
   ("isro", "Isle Royale"), ("kefj", "Kenai Fjords"), ("lavo", "Lassen Volcanic"),
   ("maca", "Mammoth Cave"), ("meve", "Mesa Verde"), ("mora", "Mount Rainier"),
   ("noca", "North Cascades"), ("pefo", "Petrified Forest"), ("redw", "Redwood"),
   ("sagu", "Saguaro"), ("shen", "Shenandoah"), ("thro", "Theodore Roosevelt"),
   ("voya", "Voyageurs"), ("wica", "Wind Cave"), ("wrst", "Wrangell St Elias")]

/-- getParkNameFromCode: static table lookup, null for unknown codes. -/
def getParkNameFromCode (parkCode : String) : Option String :=
  List.lookup parkCode parkMap

/-- A RecArea record of the remote search response (the fields the resolver
reads). -/
structure RecArea where
  RecAreaName : String
  RecAreaID : Int
  deriving DecidableEq, Repr

/-- The best-match tie-break chain of parkToRecAreaId: case-insensitive
exact name equality or name containing the display name followed by
national park; else first result containing the display name; else the
first search result. -/
def bestRecAreaMatch (parkName : String) (results : List RecArea) : Option RecArea :=
  let b1 := results.find? (fun area =>
    jsToLower area.RecAreaName == jsToLower parkName ||
    strIncludes (jsToLower area.RecAreaName) (jsToLower parkName ++ " national park"))
  let b2 := match b1 with
    | some b => some b
    | none => results.find? (fun area =>
        strIncludes (jsToLower area.RecAreaName) (jsToLower parkName))
  match b2 with
  | some b => some b
  | none => results.head?

/-- The try-block of parkToRecAreaId after the static-table miss: resolve a
display name (null means NotFound with no network call), then run the
remote search (whose transport outcome is passed in as searchResult), then
pick the best match.  An .error result models the awaited search call
throwing. -/
def parkToRecAreaIdSearch (parkCode : String)
    (searchResult : Except Unit (List RecArea)) : Except Unit (Option Int) :=
  match getParkNameFromCode parkCode with
  | none => .ok none
  | some parkName =>
    match searchResult with
    | .error e => .error e
    | .ok results =>
      if results.isEmpty then .ok none
      else .ok ((bestRecAreaMatch parkName results).map (fun a => a.RecAreaID))

/-- parkToRecAreaId: static table hit wins; otherwise the try-block runs and
its catch-clause turns any thrown error into null. -/
def parkToRecAreaId (parkCode : String)
    (searchResult : Except Unit (List RecArea)) : Option Int :=
  match List.lookup parkCode knownMappings with
  | some id => some id
  | none =>
    match parkToRecAreaIdSearch parkCode searchResult with
    | .ok v => v
    | .error _ => none

/-- C5 counterexample: for the park code dena (known display name, no static
id), a transport failure of the remote search yields exactly the NotFound
outcome null — the same value as a successful search with zero candidates —
because the resolver's catch-clause swallows the error; nothing distinct
from NotFound reaches the caller. -/
theorem resolve_failure_counterexample :
    parkToRecAreaId "dena" (.error ()) = none ∧
    parkToRecAreaId "dena" (.ok []) = none ∧
    parkToRecAreaId "dena" (.error ()) = parkToRecAreaId "dena" (.ok []) := by
  refine ⟨by decide, by decide, by decide⟩

/-- C5 amended: a network/transport failure of the remote search call is
caught inside resolution and silently converted into the NotFound outcome:
with a failing search, resolution returns exactly the static-table lookup
(none, i.e. NotFound, for every code outside the static id table), and is
indistinguishable from a search that returned zero candidates. -/
theorem resolve_failure_swallowed_as_notfound :
    ∀ code : String,
      parkToRecAreaId code (.error ()) = List.lookup code knownMappings ∧
      parkToRecAreaId code (.error ()) = parkToRecAreaId code (.ok []) := by
  intro code
  unfold parkToRecAreaId parkToRecAreaIdSearch
  cases h : List.lookup code knownMappings <;>
    cases h2 : getParkNameFromCode code <;>
      simp [h, h2, List.isEmpty_nil]

/-- Park, as returned by npsService.getParkById (fields planParkVisit
reads). -/
structure Park where
  name : String
  parkCode : Option String
  description : Option String
  deriving DecidableEq, Repr

/-- Which planning-tips branch planParkVisit appends. -/
inductive TipsKind
  | yose
  | grca
  | generic
  deriving DecidableEq, Repr

/-- The trip-dates sub-report of planParkVisit: hasDataMsg is the
"We have some weather forecast data" line, listedDays the per-day lines
printed for the trip, outsideMsg the "outside our current 3-day forecast
window" line. -/
structure TripSection where
  hasDataMsg : Bool
  listedDays : List ForecastDay
  outsideMsg : Bool
  deriving DecidableEq, Repr

/-- new Date(forecast[0].date): first forecast day's date (only evaluated on
a non-empty forecast; the getD default is unreachable there). -/
def forecastStartDate (forecast : List ForecastDay) : Int :=
  ((forecast.head?).map (fun d => d.date)).getD 0

/-- new Date(forecast[forecast.length - 1].date): last forecast day's date. -/
def forecastEndDate (forecast : List ForecastDay) : Int :=
  ((forecast.getLast?).map (fun d => d.date)).getD 0

/-- The trip-window block of planParkVisit, reached when both trip dates are
supplied and the forecast is non-empty. -/
def mkTripSection (tripStart tripEnd : Int) (forecast : List ForecastDay) : TripSection :=
  if tripStart ≤ forecastEndDate forecast ∧ tripEnd ≥ forecastStartDate forecast then
    let tripForecast := forecast.filter (fun day =>
      decide (tripStart ≤ day.date) && decide (day.date ≤ tripEnd))
    if tripForecast.isEmpty then
      { hasDataMsg := true, listedDays := tripForecast, outsideMsg := true }
    else
      { hasDataMsg := true, listedDays := tripForecast, outsideMsg := false }
  else
    { hasDataMsg := false, listedDays := [], outsideMsg := true }

/-- The structure of the response text planParkVisit assembles once every
awaited fetch has succeeded.  forecastAvailable is false exactly when the
"Weather forecast not available." line is printed; recommendedDays is the
ranked top-3 slice; tripSection is present when both trip dates were
supplied and the forecast is non-empty (with an empty forecast the code
prints only the trip header). -/
structure VisitReport where
  parkName : String
  closureAlerts : List Alert
  forecastAvailable : Bool
  forecastDays : List ForecastDay
  recommendedDays : List DayScore
  tips : TipsKind
  tripSection : Option TripSection
  deriving DecidableEq, Repr

/-- The pure composition step of planParkVisit. -/
def composeVisitReport (park : Park) (alerts : List Alert)
    (forecast : List ForecastDay) (detailedForecast : List ForecastDay)
    (tripDates : Option (Int × Int)) : VisitReport :=
  { parkName := park.name
    closureAlerts := closureAlertsOf alerts
    forecastAvailable := !forecast.isEmpty
    forecastDays := forecast
    recommendedDays := (rankDays (scoreDays detailedForecast)).take 3
    tips := if park.parkCode == some "yose" then .yose
            else if park.parkCode == some "grca" then .grca
            else .generic
    tripSection := match tripDates with
      | none => none
      | some (ts, te) =>
        if forecast.isEmpty then none else some (mkTripSection ts te forecast) }

/-- The possible outcomes of the planParkVisit tool handler. -/
inductive PlanVisitOutput
  | report (r : VisitReport)
  | parkNotFound
  | errorMessage
  deriving DecidableEq, Repr

/-- The planParkVisit tool handler: each awaited upstream result is passed
in; the surrounding try/catch maps any thrown error to the single
"Error planning park visit" message, and a missing park to the
"Could not find park" message. -/
def planParkVisitTool (parkResult : Except Unit (Option Park))
    (alertsResult : Except Unit (List Alert))
    (forecastResult : Except Unit (List ForecastDay))
    (detailedResult : Except Unit (List ForecastDay))
    (tripDates : Option (Int × Int)) : PlanVisitOutput :=
  match parkResult with
  | .error _ => .errorMessage
  | .ok none => .parkNotFound
  | .ok (some park) =>
    match alertsResult with
    | .error _ => .errorMessage
    | .ok alerts =>
      match forecastResult with
      | .error _ => .errorMessage
      | .ok forecast =>
        match detailedResult with
        | .error _ => .errorMessage
        | .ok detailed =>
          .report (composeVisitReport park alerts forecast detailed tripDates)

/-- A concrete park for counterexamples. -/
def examplePark : Park :=
  { name := "Yosemite National Park", parkCode := some "yose", description := none }

/-- C3 counterexample: with the park resolved and every other subsource
healthy, a failed upstream alerts fetch makes the composer return the
single error message — report construction is aborted, no report with a
"not available" section is produced. -/
theorem composer_aborts_on_failed_subsource :
    planParkVisitTool (.ok (some examplePark)) (.error ())
      (.ok [exampleSunnyDay]) (.ok [exampleSunnyDay]) none = .errorMessage := by
  rfl

/-- C3 amended: composing never fails because a subsource is merely empty —
with all fetches succeeding the composer always returns a complete report,
an empty forecast yields the explicit "not available" forecast section and
an empty alert list yields a report whose closure-alert section is simply
empty (omitted) — but an upstream fetch failure of the alerts, forecast or
detailed-forecast subsource is caught and turned into a single error
message instead of a report. -/
theorem composer_tolerates_empty_but_not_failed :
    ∀ (park : Park) (alerts : List Alert) (forecast detailed : List ForecastDay)
      (tripDates : Option (Int × Int)),
      planParkVisitTool (.ok (some park)) (.ok alerts) (.ok forecast) (.ok detailed) tripDates
          = .report (composeVisitReport park alerts forecast detailed tripDates) ∧
      (composeVisitReport park alerts [] detailed tripDates).forecastAvailable = false ∧
      (composeVisitReport park alerts (exampleSunnyDay :: forecast) detailed
          tripDates).forecastAvailable = true ∧
      (composeVisitReport park [] forecast detailed tripDates).closureAlerts = [] ∧
      planParkVisitTool (.ok (some park)) (.error ()) (.ok forecast) (.ok detailed) tripDates
          = .errorMessage ∧
      planParkVisitTool (.ok (some park)) (.ok alerts) (.error ()) (.ok detailed) tripDates
          = .errorMessage ∧
      planParkVisitTool (.ok (some park)) (.ok alerts) (.ok forecast) (.error ()) tripDates
          = .errorMessage := by
  intro park alerts forecast detailed tripDates
  exact ⟨rfl, rfl, rfl, rfl, rfl, rfl, rfl⟩

/-- A forecast day with integer date n (May example: n stands for 2024-05-n). -/
def mayDay (n : Int) : ForecastDay :=
  { date := n, minTempF := 60, maxTempF := 80, condition := "Sunny", chanceOfRain := 10 }

/-- The spec's example forecast window 2024-05-03 .. 2024-05-10. -/
def mayForecast : List ForecastDay :=
  [mayDay 3, mayDay 4, mayDay 5, mayDay 6, mayDay 7, mayDay 8, mayDay 9, mayDay 10]

/-- C9: for every supplied trip window and non-empty forecast, the trip
section reports overlap exactly when tripStart ≤ forecast end and tripEnd ≥
forecast start; on overlap the listed days are exactly the forecast days
whose date lies in the trip window inclusive, and without overlap nothing is
listed and the outside-the-window message is shown; the composer embeds this
section whenever trip dates are supplied; the spec's May examples evaluate
as stated. -/
theorem trip_window_overlap_exact :
    ∀ (ts te : Int) (d : ForecastDay) (rest : List ForecastDay) (park : Park)
      (alerts : List Alert) (detailed : List ForecastDay),
      (mkTripSection ts te (d :: rest)).hasDataMsg
          = decide (ts ≤ forecastEndDate (d :: rest) ∧ te ≥ forecastStartDate (d :: rest)) ∧
      (mkTripSection ts te (d :: rest)).listedDays
          = (if ts ≤ forecastEndDate (d :: rest) ∧ te ≥ forecastStartDate (d :: rest)
             then (d :: rest).filter (fun day => decide (ts ≤ day.date) && decide (day.date ≤ te))
             else []) ∧
      (mkTripSection ts te (d :: rest)).outsideMsg
          = (!decide (ts ≤ forecastEndDate (d :: rest) ∧ te ≥ forecastStartDate (d :: rest))
             || ((d :: rest).filter (fun day =>
                  decide (ts ≤ day.date) && decide (day.date ≤ te))).isEmpty) ∧
      (composeVisitReport park alerts (d :: rest) detailed (some (ts, te))).tripSection
          = some (mkTripSection ts te (d :: rest)) ∧
      (mkTripSection 1 5 mayForecast).hasDataMsg = true ∧
      (mkTripSection 1 5 mayForecast).listedDays = [mayDay 3, mayDay 4, mayDay 5] ∧
      mkTripSection (-9) 2 mayForecast
          = { hasDataMsg := false, listedDays := [], outsideMsg := true } := by
  intro ts te d rest park alerts detailed
  refine ⟨?_, ?_, ?_, rfl, by decide, by decide, by decide⟩
  · by_cases h : ts ≤ forecastEndDate (d :: rest) ∧ te ≥ forecastStartDate (d :: rest)
    · simp only [mkTripSection, if_pos h, decide_eq_true h]
      split <;> rfl
    · simp only [mkTripSection, if_neg h, decide_eq_false h]
  · by_cases h : ts ≤ forecastEndDate (d :: rest) ∧ te ≥ forecastStartDate (d :: rest)
    · simp only [mkTripSection, if_pos h]
      split <;> rfl
    · simp only [mkTripSection, if_neg h]
  · by_cases h : ts ≤ forecastEndDate (d :: rest) ∧ te ≥ forecastStartDate (d :: rest)
    · simp only [mkTripSection, if_pos h, decide_eq_true h, Bool.not_true, Bool.false_or]
      split
      · next h2 => simp [h2]
      · next h2 => simp [h2]
    · simp only [mkTripSection, if_neg h, decide_eq_false h, Bool.not_false, Bool.true_or]

/-- A JS number that may be NaN (the result of parseFloat on a malformed
string). -/
inductive JsNumber
  | nan
  | num (q : Rat)
  deriving DecidableEq, Repr

/-- Decimal value of a digit list. -/
def digitsVal (cs : List Char) : Nat :=
  cs.foldl (fun n c => 10 * n + (c.toNat - 48)) 0

/-- Models JS parseFloat on ordinary decimal strings: optional leading
whitespace, optional sign, digits with an optional fraction part; an input
with no leading digits at all is NaN.  (Exponent notation and Infinity,
never present in the attribute data, are not modelled.) -/
def parseFloat (s : String) : JsNumber :=
  let cs := s.toList.dropWhile (fun c => c.isWhitespace)
  let signAndRest : Int × List Char :=
    match cs with
    | '-' :: rest => (-1, rest)
    | '+' :: rest => (1, rest)
    | _ => (1, cs)
  let intPart := signAndRest.2.takeWhile (fun c => c.isDigit)
  let afterInt := signAndRest.2.dropWhile (fun c => c.isDigit)
  let fracPart :=
    match afterInt with
    | '.' :: r => r.takeWhile (fun c => c.isDigit)
    | _ => []
  if intPart.isEmpty && fracPart.isEmpty then .nan
  else .num (((signAndRest.1 * (digitsVal (intPart ++ fracPart) : Int) : Int) : Rat) /
    (10 : Rat) ^ fracPart.length)

/-- One entry of a raw attribute list: AttributeName / AttributeKey /
AttributeValue (the code only ever reads these three fields; the value is
compared as a string and parsed with parseFloat). -/
structure AttrPair where
  name : Option String
  key : Option String
  value : String
  deriving DecidableEq, Repr

/-- The raw ATTRIBUTES payload attached to a detail response, in the shapes
the service recognizes: a flat array of pairs, a nested object whose
ATTRIBUTES field holds the array, or anything else (a string, number or
plain object — shapes on which an array method lookup fails). -/
inductive RawAttributes
  | flat (pairs : List AttrPair)
  | nested (pairs : List AttrPair)
  | other
  deriving DecidableEq, Repr

/-- The class-level getAttributeValue helper of RecGovService: handles the
flat-array shape and the nested ATTRIBUTES shape (matching on AttributeName
or AttributeKey), and returns undefined on anything else — it never
throws. -/
def getAttributeValue (attrs : Option RawAttributes) (attributeName : String) : Option String :=
  match attrs with
  | none => none
  | some (.flat pairs) =>
    (pairs.find? (fun a => a.name == some attributeName || a.key == some attributeName)).map
      (fun a => a.value)
  | some (.nested pairs) =>
    (pairs.find? (fun a => a.name == some attributeName || a.key == some attributeName)).map
      (fun a => a.value)
  | some .other => none

/-- The local getAttributeValue closure inside mapTrailResponse:
trail.Attributes?.find(a => a.AttributeName === name).  Optional chaining
short-circuits on an absent container, and an array container works, but on
the nested shape (or any other non-array value) .find is not a function and
a TypeError is thrown — modelled as .error. -/
def localGetAttr (attrs : Option RawAttributes) (name : String) : Except Unit (Option String) :=
  match attrs with
  | none => .ok none
  | some (.flat pairs) =>
    .ok ((pairs.find? (fun a => a.name == some name)).map (fun a => a.value))
  | some (.nested _) => .error ()
  | some .other => .error ()

/-- The base facility fields getTrailsByPark reads from each RECDATA item. -/
structure Candidate where
  FacilityID : Nat
  FacilityName : Option String
  FacilityTypeDescription : Option String
  FacilityDescription : Option String
  FacilityLatitude : Option Rat
  FacilityLongitude : Option Rat
  deriving DecidableEq, Repr

/-- The trail-candidate selection of getTrailsByPark: FacilityTypeDescription
strictly equal to the string Trail, or a truthy FacilityName whose lowering
contains trail. -/
def isTrailCandidate (f : Candidate) : Bool :=
  f.FacilityTypeDescription == some "Trail" ||
  (match f.FacilityName with
   | none => false
   | some s => !(s == "") && strIncludes (jsToLower s) "trail")

/-- The primary filter over resp.RECDATA. -/
def selectTrailCandidates (l : List Candidate) : List Candidate :=
  l.filter isTrailCandidate

/-- The identical lambda repeated on the fallback keyword-search results. -/
def isTrailCandidateFallback (f : Candidate) : Bool :=
  f.FacilityTypeDescription == some "Trail" ||
  (match f.FacilityName with
   | none => false
   | some s => !(s == "") && strIncludes (jsToLower s) "trail")

/-- The filter over searchResp.RECDATA in the fallback branch. -/
def selectFallbackCandidates (l : List Candidate) : List Candidate :=
  l.filter isTrailCandidateFallback

/-- The 40 named activity checks of mapTrailResponse, in source order. -/
def activityNames : List String :=
  ["Arts and Culture", "Astronomy", "Auto and ATV", "Biking", "Boating",
   "Camping", "Canyoneering", "Caving", "Climbing", "Compass and GPS",
   "Dog Sledding", "Fishing", "Flying", "Food", "Golf",
   "Guided Tours", "Hands-On", "Hiking", "Horse Trekking", "Hunting and Gathering",
   "Ice Skating", "Junior Ranger Program", "Living History", "Museum Exhibits", "Paddling",
   "Park Film", "Playground", "SCUBA Diving", "Shopping", "Skiing",
   "Snorkeling", "Snow Play", "Snowmobiling", "Snowshoeing", "Surfing",
   "Swimming", "Team Sports", "Tubing", "Water Skiing", "Wildlife Watching"]

/-- The activityIdMap literal of mapTrailResponse (opaque activity id to
capability name), in source order. -/
def activityIdMap : List (String × String) :=
  [("09DF0950-D319-4557-A57E-04CD2F63FF42", "Arts and Culture"),
   ("13A57703-BB1A-41A2-94B8-53B692EB7238", "Astronomy"),
   ("5F723BAD-7359-48FC-98FA-631592256E35", "Auto and ATV"),
   ("7CE6E935-F839-4FEC-A63E-052B1DEF39D2", "Biking"),
   ("071BA73C-1D3C-46D4-A53C-00D5602F7F0E", "Boating"),
   ("A59947B7-3376-49B4-AD02-C0423E08C5F7", "Camping"),
   ("07CBCA6A-46B8-413F-8B6C-ABEDEBF9853E", "Canyoneering"),
   ("BA316D0F-92AE-4E00-8C80-DBD605DC58C3", "Caving"),
   ("B12FAAB9-713F-4B38-83E4-A273F5A43C77", "Climbing"),
   ("C11D3746-5063-4BD0-B245-7178D1AD866C", "Compass and GPS"),
   ("8C495067-8E94-4D78-BBD4-3379DACF6550", "Dog Sledding"),
   ("AE42B46C-E4B7-4889-A122-08FE180371AE", "Fishing"),
   ("D72206E4-6CD1-4441-A355-F8F1827466B1", "Flying"),
   ("1DFACD97-1B9C-4F5A-80F2-05593604799E", "Food"),
   ("3F3ABD16-2C52-4EAA-A1F6-4235DE5686F0", "Golf"),
   ("B33DC9B6-0B7D-4322-BAD7-A13A34C584A3", "Guided Tours"),
   ("42FD78B9-2B90-4AA9-BC43-F10E9FEA8B5A", "Hands-On"),
   ("BFF8C027-7C8F-480B-A5F8-CD8CE490BFBA", "Hiking"),
   ("0307955A-B65C-4CE4-A780-EB36BAAADF0B", "Horse Trekking"),
   ("8386EEAF-985F-4DE8-9037-CCF91975AC94", "Hunting and Gathering"),
   ("5FF5B286-E9C3-430E-B612-3380D8138600", "Ice Skating"),
   ("DF4A35E0-7983-4A3E-BC47-F37B872B0F25", "Junior Ranger Program"),
   ("B204DE60-5A24-43DD-8902-C81625A09A74", "Living History"),
   ("C8F98B28-3C10-41AE-AA99-092B3B398C43", "Museum Exhibits"),
   ("4D224BCA-C127-408B-AC75-A51563C42411", "Paddling"),
   ("0C0D142F-06B5-4BE1-8B44-491B90F93DEB", "Park Film"),
   ("7779241F-A70B-49BC-86F0-829AE332C708", "Playground"),
   ("42CF4021-8524-428E-866A-D33097A4A764", "SCUBA Diving"),
   ("24380E3F-AD9D-4E38-BF13-C8EEB21893E7", "Shopping"),
   ("F9B1D433-6B86-4804-AED7-B50A519A3B7C", "Skiing"),
   ("3EBF7EAC-68FC-4754-B6A4-0C38A1583D45", "Snorkeling"),
   ("C38B3C62-1BBF-4EA1-A1A2-35DE21B74C17", "Snow Play"),
   ("7C912B83-1B1B-4807-9B66-97C12211E48E", "Snowmobiling"),
   ("01D717BC-18BB-4FE4-95BA-6B13AD702038", "Snowshoeing"),
   ("AE3C95F5-E05B-4A28-81DD-1C5FD4BE88E2", "Surfing"),
   ("587BB2D3-EC35-41B2-B3F7-A39E2B088AEE", "Swimming"),
   ("94369BFD-F186-477E-8713-AE2A745154DA", "Team Sports"),
   ("4D06CEED-90C6-4B69-B264-32CC90B69BA6", "Tubing"),
   ("8A1C7B17-C2C6-4F7C-9539-EA1E19971D80", "Water Skiing"),
   ("0B685688-3405-4E2A-ABBA-E3069492EC50", "Wildlife Watching")]

/-- One element of a parsed Activities JSON array: a plain string, or an
object carrying optional name and id fields. -/
inductive ActivityItem
  | str (s : String)
  | obj (nm : Option String) (id : Option String)
  deriving DecidableEq, Repr

/-- Outcome of JSON.parse on the Activities attribute value: an array of
items, some non-array JSON value, or a parse error (throw). -/
inductive JsonParseOutcome
  | arr (items : List ActivityItem)
  | nonArray
  | throwed
  deriving DecidableEq, Repr

/-- JSON.parse is a JS runtime primitive; its outcome on the Activities
string is passed in as a function, like the other external capabilities. -/
abbrev JsonParseFn := String → JsonParseOutcome

/-- The 40 named checks: push the activity name when its attribute value is
the string Yes (the names are pairwise distinct, the code pushes without a
membership check here). -/
def addNamedUses (attrs : Option RawAttributes) (uses : List String) :
    Except Unit (List String) :=
  activityNames.foldlM (fun us nm => do
    let v ← localGetAttr attrs nm
    pure (if v == some "Yes" then us ++ [nm] else us)) uses

/-- The Object.entries(activityIdMap).forEach loop: push the mapped
capability name when the id-keyed attribute is Yes and the name is not
already present. -/
def addIdUses (attrs : Option RawAttributes) (uses : List String) :
    Except Unit (List String) :=
  activityIdMap.foldlM (fun us p => do
    let v ← localGetAttr attrs p.1
    pure (if v == some "Yes" && !us.contains p.2 then us ++ [p.2] else us)) uses

/-- One step of the parsed-JSON-array branch: a string item is pushed if new;
an object contributes its truthy name if new, else its id resolved through
activityIdMap if new. -/
def pushActivityItem (us : List String) (it : ActivityItem) : List String :=
  match it with
  | .str a => if !us.contains a then us ++ [a] else us
  | .obj nm id =>
    let n := nm.getD ""
    if !(n == "") && !us.contains n then us ++ [n]
    else
      let i := id.getD ""
      if !(i == "") then
        match List.lookup i activityIdMap with
        | some mapped => if !us.contains mapped then us ++ [mapped] else us
        | none => us
      else us

/-- The comma-split fallback when JSON.parse throws: split on commas, trim,
push each non-empty new token. -/
def commaSplitChars : List Char → List (List Char)
  | [] => [[]]
  | c :: rest =>
    let r := commaSplitChars rest
    if c == ',' then [] :: r
    else match r with
      | [] => [[c]]
      | t :: ts => (c :: t) :: ts

/-- Models JS s.split(com).map(trim-like use): trim of one token. -/
def trimChars (cs : List Char) : List Char :=
  ((cs.dropWhile (fun c => c.isWhitespace)).reverse.dropWhile
    (fun c => c.isWhitespace)).reverse

/-- The activitiesAttribute.split(",").forEach fallback loop. -/
def commaSplitAdd (s : String) (uses : List String) : List String :=
  (commaSplitChars s.toList).foldl (fun us tok =>
    let t := String.mk (trimChars tok)
    if !(t == "") && !us.contains t then us ++ [t] else us) uses

/-- The Activities freeform attribute handling of mapTrailResponse: a truthy
Activities value is JSON-parsed; an array contributes per-item capabilities,
a non-array parse contributes nothing, and a parse failure falls back to
comma-splitting. -/
def addFromActivities (jsonParse : JsonParseFn) (attrs : Option RawAttributes)
    (uses : List String) : Except Unit (List String) := do
  let v ← localGetAttr attrs "Activities"
  match v with
  | none => pure uses
  | some s =>
    if s == "" then pure uses
    else match jsonParse s with
      | .arr items => pure (items.foldl pushActivityItem uses)
      | .nonArray => pure uses
      | .throwed => pure (commaSplitAdd s uses)

/-- The canonical Trail entity produced by mapTrailResponse (scalar fields
keep the JS value: a truthy raw string parses to a JsNumber that may be
NaN, an absent or empty raw value is undefined/none). -/
structure Trail where
  id : String
  name : Option String
  parkCode : String
  length : Option JsNumber
  difficulty : Option String
  description : Option String
  elevationGain : Option JsNumber
  trailType : Option String
  surfaceType : Option String
  trailUse : List String
  trailhead : Option (Rat × Rat × Option String)
  deriving DecidableEq, Repr

/-- value ? parseFloat(value) : undefined. -/
def numFieldOfAttr (v : Option String) : Option JsNumber :=
  match v with
  | none => none
  | some s => if s == "" then none else some (parseFloat s)

/-- A post-selection candidate together with the Attributes payload the
enrichment step attached to it (none when the detail fetch failed, returned
no RECDATA, or carried no ATTRIBUTES field). -/
structure EnrichedCandidate where
  base : Candidate
  attrs : Option RawAttributes
  deriving DecidableEq, Repr

/-- mapTrailResponse: scalar lookups, the capability set, and the record
assembly, in source order; every attribute lookup goes through the local
closure and therefore throws on a non-array Attributes container. -/
def mapTrailResponse (jsonParse : JsonParseFn) (parkCode : String)
    (t : EnrichedCandidate) : Except Unit Trail := do
  let lengthS ← localGetAttr t.attrs "Trail Length"
  let difficulty ← localGetAttr t.attrs "Trail Difficulty"
  let elevS ← localGetAttr t.attrs "Elevation Gain"
  let surfaceType ← localGetAttr t.attrs "Trail Surface"
  let uses0 ← addNamedUses t.attrs []
  let uses1 ← addIdUses t.attrs uses0
  let uses2 ← addFromActivities jsonParse t.attrs uses1
  let trailType ← localGetAttr t.attrs "Trail Type"
  pure {
    id := toString t.base.FacilityID
    name := t.base.FacilityName
    parkCode := parkCode
    length := numFieldOfAttr lengthS
    difficulty := difficulty
    description := t.base.FacilityDescription
    elevationGain := numFieldOfAttr elevS
    trailType := trailType
    surfaceType := surfaceType
    trailUse := uses2
    trailhead := match t.base.FacilityLatitude, t.base.FacilityLongitude with
      | some la, some lo =>
        if !(la == 0) && !(lo == 0) then some (la, lo, t.base.FacilityName) else none
      | _, _ => none }

/-- The per-candidate enrichment step of getTrailsByPark: a thrown detail
fetch (error) or an empty RECDATA keeps the plain candidate; a successful
detail attaches its ATTRIBUTES payload (itself possibly absent). -/
def enrichOne (c : Candidate)
    (r : Except Unit (Option (Option RawAttributes))) : EnrichedCandidate :=
  match r with
  | .error _ => { base := c, attrs := none }
  | .ok none => { base := c, attrs := none }
  | .ok (some a) => { base := c, attrs := a }

/-- The detailedTrails loop: one enriched entry per candidate, in order. -/
def enrichTrails (trails : List Candidate)
    (fetchDetail : Candidate → Except Unit (Option (Option RawAttributes))) :
    List EnrichedCandidate :=
  trails.map (fun c => enrichOne c (fetchDetail c))

/-- The optional query of getTrailsByPark. -/
structure TrailQuery where
  trailId : Option String
  difficulty : Option String
  minLength : Option Rat
  maxLength : Option Rat
  deriving DecidableEq, Repr

/-- JS truthiness of an optional string (undefined and the empty string are
falsy). -/
def truthyStr : Option String → Bool
  | none => false
  | some s => !(s == "")

/-- JS truthiness of an optional number (undefined and 0 are falsy; a NaN
bound would also be falsy but cannot arise from the callers). -/
def truthyNum : Option Rat → Bool
  | none => false
  | some q => !(q == 0)

/-- parseFloat(lengthAttr) >= bound (false when the parse gave NaN). -/
def jsGeNum (n : JsNumber) (bound : Rat) : Bool :=
  match n with
  | .nan => false
  | .num q => bound ≤ q

/-- parseFloat(lengthAttr) <= bound (false when the parse gave NaN). -/
def jsLeNum (n : JsNumber) (bound : Rat) : Bool :=
  match n with
  | .nan => false
  | .num q => q ≤ bound

/-- The query-filter chain of getTrailsByPark.  Each criterion is guarded by
JS truthiness of the supplied field; the length filters use the class-level
getAttributeValue and require a truthy raw value.  (In the guarded branches
the getD defaults are unreachable: minLength there is the supplied truthy
value, and the || Infinity fallback for maxLength likewise never fires.) -/
def applyQuery (q : Option TrailQuery) (ts : List EnrichedCandidate) :
    List EnrichedCandidate :=
  match q with
  | none => ts
  | some query =>
    let t1 := if truthyStr query.trailId then
        ts.filter (fun t => toString t.base.FacilityID == query.trailId.getD "")
      else ts
    let t2 := if truthyStr query.difficulty then
        t1.filter (fun t =>
          match getAttributeValue t.attrs "Trail Difficulty" with
          | none => false
          | some s => !(s == "") && strIncludes (jsToLower s) (jsToLower (query.difficulty.getD "")))
      else t1
    let t3 := if truthyNum query.minLength then
        t2.filter (fun t =>
          match getAttributeValue t.attrs "Trail Length" with
          | none => false
          | some s => !(s == "") && jsGeNum (parseFloat s) (query.minLength.getD 0))
      else t2
    let t4 := if truthyNum query.maxLength then
        t3.filter (fun t =>
          match getAttributeValue t.attrs "Trail Length" with
          | none => false
          | some s => !(s == "") && jsLeNum (parseFloat s) (query.maxLength.getD 0))
      else t3
    t4

/-- JS Array.prototype.map with a callback that can throw: the first thrown
element aborts the whole map. -/
def mapExcept {α β : Type} (g : α → Except Unit β) : List α → Except Unit (List β)
  | [] => .ok []
  | a :: as =>
    match g a with
    | .error e => .error e
    | .ok b =>
      match mapExcept g as with
      | .error e => .error e
      | .ok bs => .ok (b :: bs)

/-- The tail of getTrailsByPark after candidate selection: per-item detail
enrichment, optional query filtering, and mapping each survivor to a Trail
(a TypeError thrown inside mapTrailResponse propagates out of the call). -/
def trailsPostSelection (jsonParse : JsonParseFn) (parkCode : String)
    (trails : List Candidate)
    (fetchDetail : Candidate → Except Unit (Option (Option RawAttributes)))
    (q : Option TrailQuery) : Except Unit (List Trail) :=
  mapExcept (mapTrailResponse jsonParse parkCode)
    (applyQuery q (enrichTrails trails fetchDetail))

/-- A facility whose type descriptor contains trail without being exactly
the string Trail, and whose name does not mention trails. -/
def hikingTrailTypeFacility : Candidate :=
  { FacilityID := 101, FacilityName := some "Mist Path",
    FacilityTypeDescription := some "Hiking Trail", FacilityDescription := none,
    FacilityLatitude := none, FacilityLongitude := none }

/-- The trail-signal predicate as the specification words it: type
descriptor or name contains trail as a case-insensitive substring. -/
def specTrailSignal (f : Candidate) : Bool :=
  (match f.FacilityTypeDescription with
   | none => false
   | some s => strIncludes (jsToLower s) "trail") ||
  (match f.FacilityName with
   | none => false
   | some s => strIncludes (jsToLower s) "trail")

/-- C8 counterexample: a facility typed Hiking Trail named Mist Path matches
the claimed case-insensitive substring rule but is rejected by the code,
whose type-descriptor test is strict equality with the exact string
Trail. -/
theorem trail_selection_counterexample :
    specTrailSignal hikingTrailTypeFacility = true ∧
    isTrailCandidate hikingTrailTypeFacility = false ∧
    selectTrailCandidates [hikingTrailTypeFacility] = [] := by
  refine ⟨by decide, by decide, by decide⟩

/-- C8 amended: a fetched facility is selected iff its type descriptor is
exactly the string Trail, or its name is present, non-empty and contains
trail case-insensitively; and the fallback keyword-search filter is the
very same rule. -/
theorem trail_selection_characterization :
    ∀ (l : List Candidate) (f : Candidate),
      (f ∈ selectTrailCandidates l ↔
        f ∈ l ∧
          (f.FacilityTypeDescription = some "Trail" ∨
           ∃ s, f.FacilityName = some s ∧ s ≠ "" ∧
             strIncludes (jsToLower s) "trail" = true)) ∧
      selectFallbackCandidates l = selectTrailCandidates l := by
  intro l f
  constructor
  · rw [selectTrailCandidates, List.mem_filter]
    refine and_congr Iff.rfl ?_
    unfold isTrailCandidate
    cases hn : f.FacilityName with
    | none => simp [hn]
    | some s => simp [hn, Bool.or_eq_true, Bool.and_eq_true, beq_iff_eq, and_assoc]
  · have h : isTrailCandidateFallback = isTrailCandidate := rfl
    rw [selectFallbackCandidates, selectTrailCandidates, h]

/-- A post-selection candidate with no decoded attributes (so no Trail
Length). -/
def candidateNoLength : EnrichedCandidate :=
  { base := { FacilityID := 7, FacilityName := some "Loop Trail",
              FacilityTypeDescription := some "Trail", FacilityDescription := none,
              FacilityLatitude := none, FacilityLongitude := none },
    attrs := none }

/-- C10: a zero minLength or maxLength is falsy, so the corresponding length
criterion is skipped entirely — the query behaves as if the bound were
absent and excludes nobody on length, whereas a non-zero bound excludes a
candidate lacking the Trail Length attribute. -/
theorem zero_length_bound_skips_filter :
    ∀ (ts : List EnrichedCandidate) (tid diff : Option String) (mn ml : Option Rat),
      applyQuery (some { trailId := tid, difficulty := diff,
                         minLength := some 0, maxLength := ml }) ts
        = applyQuery (some { trailId := tid, difficulty := diff,
                             minLength := none, maxLength := ml }) ts ∧
      applyQuery (some { trailId := tid, difficulty := diff,
                         minLength := mn, maxLength := some 0 }) ts
        = applyQuery (some { trailId := tid, difficulty := diff,
                             minLength := mn, maxLength := none }) ts ∧
      applyQuery (some { trailId := none, difficulty := none,
                         minLength := some 0, maxLength := none }) ts = ts ∧
      applyQuery (some { trailId := none, difficulty := none,
                         minLength := some 1, maxLength := none }) [candidateNoLength] = [] := by
  intro ts tid diff mn ml
  refine ⟨?_, ?_, ?_, by decide⟩ <;>
    simp [applyQuery, truthyNum, truthyStr]

/-- A shared base candidate for the attribute-decoding inputs. -/
def mistTrailBase : Candidate :=
  { FacilityID := 42, FacilityName := some "Mist Trail",
    FacilityTypeDescription := some "Trail", FacilityDescription := none,
    FacilityLatitude := none, FacilityLongitude := none }

/-- A detail payload in the recognized nested shape: the pair list sits
under an ATTRIBUTES field of a wrapping object. -/
def nestedAttrsCandidate : EnrichedCandidate :=
  { base := mistTrailBase,
    attrs := some (.nested [⟨some "Trail Length", none, "4.5"⟩]) }

/-- A flat pair list whose Trail Length value is the malformed string abc. -/
def malformedLengthCandidate : EnrichedCandidate :=
  { base := mistTrailBase,
    attrs := some (.flat [⟨some "Trail Length", none, "abc"⟩]) }

/-- A JSON.parse stand-in (never reached by these inputs: neither carries an
Activities attribute). -/
def jsonParseNone : JsonParseFn := fun _ => .throwed

/-- C6 evaluated at the failing inputs: on the recognized nested container
the trail mapper throws (its local attribute lookup calls a method that only
arrays have), even though the class-level lookup decodes the very same
container; and on a flat list with the malformed value abc the produced
length is NaN, not an absent scalar. -/
theorem attribute_decode_raises_on_nested :
    mapTrailResponse jsonParseNone "yose" nestedAttrsCandidate = .error () ∧
    getAttributeValue nestedAttrsCandidate.attrs "Trail Length" = some "4.5" ∧
    (mapTrailResponse jsonParseNone "yose" malformedLengthCandidate).map (fun t => t.length)
      = .ok (some JsNumber.nan) := by
  refine ⟨by rfl, by decide, by rfl⟩

/-- Whether an enrichment payload is one the trail mapper survives: absent
or the flat array shape. -/
def attrsFlatOrAbsent : Option RawAttributes → Bool
  | none => true
  | some (.flat _) => true
  | some (.nested _) => false
  | some .other => false

/-- Total twin of localGetAttr on the surviving shapes (none elsewhere). -/
def getLocalAttrT : Option RawAttributes → String → Option String
  | none, _ => none
  | some (.flat pairs), n =>
    (pairs.find? (fun a => a.name == some n)).map (fun a => a.value)
  | some (.nested _), _ => none
  | some .other, _ => none

/-- Bind of an ok value in the Except Unit monad. -/
theorem ok_bind {α β : Type} (a : α) (f : α → Except Unit β) :
    ((Except.ok a : Except Unit α) >>= f) = f a := rfl

/-- pure in the Except Unit monad is ok. -/
theorem pure_eq_ok {α : Type} (a : α) : (pure a : Except Unit α) = .ok a := rfl

/-- On a flat or absent container the local lookup returns ok of its total
twin. -/
theorem localGetAttr_ok (attrs : Option RawAttributes)
    (h : attrsFlatOrAbsent attrs = true) (n : String) :
    localGetAttr attrs n = .ok (getLocalAttrT attrs n) := by
  match attrs with
  | none => rfl
  | some (.flat pairs) => rfl
  | some (.nested pairs) => simp [attrsFlatOrAbsent] at h
  | some .other => simp [attrsFlatOrAbsent] at h

/-- Total twin of the 40 named-activity checks. -/
def namedUsesT (attrs : Option RawAttributes) (uses : List String) : List String :=
  activityNames.foldl (fun us nm =>
    if getLocalAttrT attrs nm == some "Yes" then us ++ [nm] else us) uses

/-- Total twin of the id-keyed activity checks. -/
def idUsesT (attrs : Option RawAttributes) (uses : List String) : List String :=
  activityIdMap.foldl (fun us p =>
    if getLocalAttrT attrs p.1 == some "Yes" && !us.contains p.2 then us ++ [p.2] else us) uses

/-- Total twin of the Activities freeform handling. -/
def addFromActivitiesT (jsonParse : JsonParseFn) (attrs : Option RawAttributes)
    (uses : List String) : List String :=
  match getLocalAttrT attrs "Activities" with
  | none => uses
  | some s =>
    if s == "" then uses
    else match jsonParse s with
      | .arr items => items.foldl pushActivityItem uses
      | .nonArray => uses
      | .throwed => commaSplitAdd s uses

/-- The named-checks fold never throws on a surviving container. -/
theorem foldlM_named_ok (attrs : Option RawAttributes)
    (h : attrsFlatOrAbsent attrs = true) :
    ∀ (l : List String) (us : List String),
      (l.foldlM (fun us nm => do
          let v ← localGetAttr attrs nm
          pure (if v == some "Yes" then us ++ [nm] else us)) us : Except Unit (List String))
        = .ok (l.foldl (fun us nm =>
            if getLocalAttrT attrs nm == some "Yes" then us ++ [nm] else us) us) := by
  intro l
  induction l with
  | nil => intro us; rfl
  | cons a as ih =>
    intro us
    rw [List.foldlM_cons, localGetAttr_ok attrs h a]
    simp only [ok_bind, pure_eq_ok, List.foldl_cons]
    exact ih _

/-- The id-keyed fold never throws on a surviving container. -/
theorem foldlM_id_ok (attrs : Option RawAttributes)
    (h : attrsFlatOrAbsent attrs = true) :
    ∀ (l : List (String × String)) (us : List String),
      (l.foldlM (fun us p => do
          let v ← localGetAttr attrs p.1
          pure (if v == some "Yes" && !us.contains p.2 then us ++ [p.2] else us)) us :
          Except Unit (List String))
        = .ok (l.foldl (fun us p =>
            if getLocalAttrT attrs p.1 == some "Yes" && !us.contains p.2
            then us ++ [p.2] else us) us) := by
  intro l
  induction l with
  | nil => intro us; rfl
  | cons a as ih =>
    intro us
    rw [List.foldlM_cons, localGetAttr_ok attrs h a.1]
    simp only [ok_bind, pure_eq_ok, List.foldl_cons]
    exact ih _

/-- addNamedUses never throws on a surviving container. -/
theorem addNamedUses_ok (attrs : Option RawAttributes)
    (h : attrsFlatOrAbsent attrs = true) (us : List String) :
    addNamedUses attrs us = .ok (namedUsesT attrs us) :=
  foldlM_named_ok attrs h activityNames us

/-- addIdUses never throws on a surviving container. -/
theorem addIdUses_ok (attrs : Option RawAttributes)
    (h : attrsFlatOrAbsent attrs = true) (us : List String) :
    addIdUses attrs us = .ok (idUsesT attrs us) :=
  foldlM_id_ok attrs h activityIdMap us

/-- addFromActivities never throws on a surviving container. -/
theorem addFromActivities_ok (jsonParse : JsonParseFn) (attrs : Option RawAttributes)
    (h : attrsFlatOrAbsent attrs = true) (us : List String) :
    addFromActivities jsonParse attrs us = .ok (addFromActivitiesT jsonParse attrs us) := by
  unfold addFromActivities addFromActivitiesT
  rw [localGetAttr_ok attrs h]
  simp only [ok_bind]
  cases getLocalAttrT attrs "Activities" with
  | none => rfl
  | some s =>
    simp only
    split
    · rfl
    · cases jsonParse s <;> rfl

/-- Total twin of mapTrailResponse on a surviving container, in the same
evaluation order. -/
def mapTrailResponseT (jsonParse : JsonParseFn) (parkCode : String)
    (t : EnrichedCandidate) : Trail :=
  let lengthS := getLocalAttrT t.attrs "Trail Length"
  let difficulty := getLocalAttrT t.attrs "Trail Difficulty"
  let elevS := getLocalAttrT t.attrs "Elevation Gain"
  let surfaceType := getLocalAttrT t.attrs "Trail Surface"
  let uses0 := namedUsesT t.attrs []
  let uses1 := idUsesT t.attrs uses0
  let uses2 := addFromActivitiesT jsonParse t.attrs uses1
  let trailType := getLocalAttrT t.attrs "Trail Type"
  { id := toString t.base.FacilityID
    name := t.base.FacilityName
    parkCode := parkCode
    length := numFieldOfAttr lengthS
    difficulty := difficulty
    description := t.base.FacilityDescription
    elevationGain := numFieldOfAttr elevS
    trailType := trailType
    surfaceType := surfaceType
    trailUse := uses2
    trailhead := match t.base.FacilityLatitude, t.base.FacilityLongitude with
      | some la, some lo =>
        if !(la == 0) && !(lo == 0) then some (la, lo, t.base.FacilityName) else none
      | _, _ => none }

/-- mapTrailResponse succeeds on a surviving container and computes its
total twin. -/
theorem mapTrailResponse_ok (jsonParse : JsonParseFn) (parkCode : String)
    (t : EnrichedCandidate) (h : attrsFlatOrAbsent t.attrs = true) :
    mapTrailResponse jsonParse parkCode t = .ok (mapTrailResponseT jsonParse parkCode t) := by
  have h1 := localGetAttr_ok t.attrs h
  have h2 := addNamedUses_ok t.attrs h
  have h3 := addIdUses_ok t.attrs h
  have h4 := addFromActivities_ok jsonParse t.attrs h
  unfold mapTrailResponse mapTrailResponseT
  simp only [h1, h2, h3, h4, ok_bind, pure_eq_ok]

/-- A Trail with no decoded attributes: every attribute-derived scalar is
absent and the capability set is empty. -/
def noAttrsB (t : Trail) : Bool :=
  t.length.isNone && t.difficulty.isNone && t.elevationGain.isNone &&
  t.trailType.isNone && t.surfaceType.isNone && t.trailUse.isEmpty

/-- Mapping a candidate with an absent container yields a Trail with no
decoded attributes. -/
theorem mapT_absent_noattrs (jsonParse : JsonParseFn) (parkCode : String) (c : Candidate) :
    noAttrsB (mapTrailResponseT jsonParse parkCode { base := c, attrs := none }) = true := rfl

/-- A throwing map aborts on the first throwing element, so when every
element maps to ok, the whole map is ok of the pointwise images. -/
theorem mapExcept_ok_of_pointwise {α β : Type} (g : α → Except Unit β) (f : α → β) :
    ∀ l : List α, (∀ x ∈ l, g x = .ok (f x)) → mapExcept g l = .ok (l.map f) := by
  intro l
  induction l with
  | nil => intro _; rfl
  | cons a as ih =>
    intro h
    have ha := h a (by simp)
    have has : ∀ x ∈ as, g x = .ok (f x) := fun x hx => h x (by simp [hx])
    simp [mapExcept, ha, ih has]

/-- C7: when every delivered payload is of a shape the mapper survives, a
detail-fetch failure for an individual candidate never removes it: with no
query filter the call returns exactly one Trail per post-selection
candidate, and each candidate whose fetch threw yields a Trail with no
decoded attributes. -/
theorem detail_fetch_failure_retains_candidate
    (jsonParse : JsonParseFn) (parkCode : String) (trails : List Candidate)
    (fetchDetail : Candidate → Except Unit (Option (Option RawAttributes)))
    (h : ∀ c ∈ trails, attrsFlatOrAbsent (enrichOne c (fetchDetail c)).attrs = true) :
    ∃ l, trailsPostSelection jsonParse parkCode trails fetchDetail none = .ok l ∧
      l.length = trails.length ∧
      ∀ (i : Nat) (c : Candidate), trails[i]? = some c → fetchDetail c = .error () →
        ∃ t, l[i]? = some t ∧ noAttrsB t = true := by
  refine ⟨(enrichTrails trails fetchDetail).map (mapTrailResponseT jsonParse parkCode),
    ?_, ?_, ?_⟩
  · unfold trailsPostSelection
    have happ : applyQuery none (enrichTrails trails fetchDetail)
        = enrichTrails trails fetchDetail := rfl
    rw [happ]
    apply mapExcept_ok_of_pointwise
    intro x hx
    rcases List.mem_map.mp hx with ⟨c, hc, rfl⟩
    exact mapTrailResponse_ok _ _ _ (h c hc)
  · simp [enrichTrails]
  · intro i c hi hf
    refine ⟨mapTrailResponseT jsonParse parkCode (enrichOne c (fetchDetail c)), ?_, ?_⟩
    · simp [enrichTrails, List.getElem?_map, hi]
    · rw [hf]
      exact mapT_absent_noattrs _ _ _

/-- A concrete trail candidate for the witness scenario. -/
def witnessCandidate (n : Nat) : Candidate :=
  { FacilityID := n, FacilityName := some "Valley Trail",
    FacilityTypeDescription := some "Trail", FacilityDescription := none,
    FacilityLatitude := none, FacilityLongitude := none }

/-- Three post-selection candidates. -/
def witnessTrails : List Candidate :=
  [witnessCandidate 1, witnessCandidate 2, witnessCandidate 3]

/-- A detail-fetch in which exactly the second candidate's fetch throws and
the other two deliver a flat Trail Length attribute. -/
def witnessFetch : Candidate → Except Unit (Option (Option RawAttributes)) := fun c =>
  if c.FacilityID == 2 then .error ()
  else .ok (some (some (.flat [⟨some "Trail Length", none, "4.5"⟩])))

/-- C7 witness: the spec's three-candidate scenario with the middle detail
fetch failing still yields one Trail per candidate, the failed one without
decoded attributes. -/
theorem detail_fetch_failure_retains_candidate_witness :
    ∃ l, trailsPostSelection jsonParseNone "yose" witnessTrails witnessFetch none = .ok l ∧
      l.length = witnessTrails.length ∧
      ∀ (i : Nat) (c : Candidate), witnessTrails[i]? = some c → witnessFetch c = .error () →
        ∃ t, l[i]? = some t ∧ noAttrsB t = true :=
  detail_fetch_failure_retains_candidate jsonParseNone "yose" witnessTrails witnessFetch
    (by decide)
